import Mathlib

/-!
# Verification of `svj/genprod/gridpackgenerator.py`

A shallow embedding of the `GridpackGenerator` workflow from
`src/svj/genprod/gridpackgenerator.py`.  Paths are lists of components,
the filesystem is an explicit state (association list of files plus a
list of directories), text files are parsed template documents
(literal chunks interleaved with named placeholders, the common parsed
form of both `string.Template` `$name` placeholders and `str.format`
`{name}` fields), and fallible Python operations return `Except`.
External collaborators (`svj.core.utils`, the `lhaIDs` table) that are
not part of the source file are modelled from the specification and
marked as such in their doc comments.
-/

namespace SvjGenprod

/-- A filesystem path, as a list of components. -/
abbrev Path := List String

/-- One segment of a parsed template document: either a literal chunk of
text or a named placeholder (a `$name` placeholder of `string.Template`,
or a `{name}` replacement field of `str.format`). -/
inductive Seg where
  | lit (s : String)
  | hole (name : String)
deriving DecidableEq, Repr

/-- Contents of a file: a text document (parsed into segments) or a tar
archive, holding archived member names together with their contents. -/
inductive Doc where
  | text (segs : List Seg)
  | tar (entries : List (Path × Doc))

/-- The filesystem state: files with their contents, and directories.
Both are finite lists; file lookup takes the first matching entry. -/
structure FS where
  files : List (Path × Doc)
  dirs : List Path

/-- Python exceptions that the embedded code can raise. -/
inductive PyErr where
  | keyError (k : String)
  | valueError (msg : String)
  | osError (p : Path)
  | isADirectoryError (p : Path)
  | fileNotFoundError (p : Path)
  | calledProcessError (returncode : Int)
  | assertionError
  | typeError
deriving DecidableEq, Repr

/-- Read the contents of the file at `p`, if one exists. -/
def readFile (fs : FS) (p : Path) : Option Doc :=
  (fs.files.find? (fun e => e.1 == p)).map (·.2)

/-- Embeds `os.path.isfile`. -/
def isFile (fs : FS) (p : Path) : Bool :=
  (readFile fs p).isSome

/-- Embeds `os.path.isdir`. -/
def isDir (fs : FS) (p : Path) : Bool :=
  fs.dirs.contains p

/-- Write (create or overwrite) the file at `p`. -/
def writeFile (fs : FS) (p : Path) (d : Doc) : FS :=
  { fs with files := (p, d) :: fs.files.filter (fun e => !(e.1 == p)) }

/-- Record the directory `p` as existing. -/
def addDir (fs : FS) (p : Path) : FS :=
  { fs with dirs := p :: fs.dirs }

/-- Embeds `shutil.rmtree`: remove the directory `p` and everything below it. -/
def removeTree (fs : FS) (p : Path) : FS :=
  { files := fs.files.filter (fun e => !(p.isPrefixOf e.1)),
    dirs := fs.dirs.filter (fun q => !(p.isPrefixOf q)) }

/-- Modelled from the spec: the `svj.core.utils.create_directory`
collaborator (not under `src/`), restricted to the calls that cannot
raise: if the directory exists it is deleted and recreated when `force`
is set, otherwise left alone; returns whether a fresh directory was
created. -/
def createDirLoose (fs : FS) (p : Path) (force : Bool) : FS × Bool :=
  if isDir fs p then
    if force then (addDir (removeTree fs p) p, true) else (fs, false)
  else (addDir fs p, true)

/-- Modelled from the spec: the `svj.core.utils.create_directory`
collaborator (not under `src/`), "directory-creation utility with
force/must-not-exist semantics": when the target exists, `force`
deletes and recreates it, otherwise `must_not_exist` raises an
`OSError`; returns the new state and whether a fresh directory was
created. -/
def create_directory (fs : FS) (p : Path) (force mustNotExist : Bool) :
    Except PyErr (FS × Bool) :=
  if isDir fs p ∧ ¬ force ∧ mustNotExist then .error (.osError p)
  else .ok (createDirLoose fs p force)

/-- Python `str.replace` for a non-empty pattern, on character lists:
replace every non-overlapping occurrence, scanning left to right.  The
first argument counts characters of an already-matched occurrence that
remain to be consumed without being emitted. -/
def replaceAux (pat repl : List Char) : Nat → List Char → List Char
  | _ + 1, [] => []
  | skip + 1, _ :: rest => replaceAux pat repl skip rest
  | 0, [] => []
  | 0, c :: rest =>
    if pat.isPrefixOf (c :: rest) then
      repl ++ replaceAux pat repl (pat.length - 1) rest
    else
      c :: replaceAux pat repl 0 rest

/-- Python `str.replace` (for the non-empty patterns used in the
source; an empty pattern is never passed). -/
def pyReplace (s pat repl : String) : String :=
  if pat.isEmpty then s
  else ⟨replaceAux pat.toList repl.toList 0 s.toList⟩

/-- Python `str.endswith`. -/
def pyEndsWith (s suffix : String) : Bool :=
  suffix.toList.isSuffixOf s.toList

/-- Python `str.startswith`. -/
def pyStartsWith (s pre : String) : Bool :=
  pre.toList.isPrefixOf s.toList

/-- Embeds `os.path.basename` for a path given as a component list. -/
def basename (p : Path) : String :=
  p.getLastD ""

/-- Substitute named placeholders in a parsed template document:
`string.Template.substitute(**vals)` and `str.format(**vals)` both
replace each named placeholder by its value and raise `KeyError` on a
name that is not supplied. -/
def substSegs (vals : List (String × String)) : List Seg → Except PyErr (List Seg)
  | [] => .ok []
  | .lit s :: rest => (substSegs vals rest).map (fun r => .lit s :: r)
  | .hole n :: rest =>
    match vals.lookup n with
    | some v => (substSegs vals rest).map (fun r => .lit v :: r)
    | none => .error (.keyError n)

/-- Returns `true` when a document has no remaining placeholder. -/
def noHoles (segs : List Seg) : Bool :=
  segs.all fun s => match s with | .hole _ => false | .lit _ => true

/-- Returns `true` when every placeholder of `segs` is named in `allowed`. -/
def holesOnly (allowed : List String) (segs : List Seg) : Bool :=
  segs.all fun s => match s with | .hole n => allowed.contains n | .lit _ => true

/-- Returns `true` when `d` is a text document all of whose placeholders
are named in `allowed`. -/
def isTextWithHoles (allowed : List String) (d : Doc) : Bool :=
  match d with
  | .text segs => holesOnly allowed segs
  | .tar _ => false

/-- Embeds `distutils.dir_util.copy_tree`: every file and directory
below `src` is replicated below `dst` (existing entries at the
destination are overwritten). -/
def copyTree (fs : FS) (src dst : Path) : FS :=
  let newFiles := fs.files.filterMap fun e =>
    if src.isPrefixOf e.1 && !(e.1 == src) then
      some (dst ++ e.1.drop src.length, e.2)
    else none
  let newDirs := fs.dirs.filterMap fun p =>
    if src.isPrefixOf p && !(p == src) then some (dst ++ p.drop src.length) else none
  { files := newFiles ++ fs.files.filter (fun e => newFiles.all fun f => !(f.1 == e.1)),
    dirs := newDirs ++ fs.dirs.filter (fun p => newDirs.all fun q => !(q == p)) }

end SvjGenprod

namespace SvjGenprod

/-! ## `create_model_dir` (gridpackgenerator.py lines 89–105) -/

/-- Configuration fields consumed by `create_model_dir`: the template
model directory selected by `define_paths`, the fixed
`MG_MODEL_DIR`, the model name, the two masses from the config, and
the `force_renew_model_dir` flag (set `True` in `__init__`). -/
structure ModelCfg where
  template_model_dir : Path
  mg_model_dir : Path
  model_name : String
  m_d : Int
  m_med : Int
  force_renew_model_dir : Bool

/-- Embeds the assignment of `self.new_model_dir`: the model name joined
under `mg_model_dir`. -/
def newModelDir (c : ModelCfg) : Path :=
  c.mg_model_dir ++ [c.model_name]

/-- The `parameters.py` file inside the new model directory. -/
def paramsPath (c : ModelCfg) : Path :=
  newModelDir c ++ ["parameters.py"]

/-- The values substituted into `parameters.py`:
`dark_quark_mass=str(self.m_d), mediator_mass=str(self.m_med)`. -/
def paramVals (c : ModelCfg) : List (String × String) :=
  [("dark_quark_mass", toString c.m_d), ("mediator_mass", toString c.m_med)]

/-- The filesystem after `create_directory` plus `copy_tree` have run
inside `create_model_dir` (the state in which `parameters.py` is
opened). -/
def modelDirAfterCopy (c : ModelCfg) (fs : FS) : FS :=
  copyTree (createDirLoose fs (newModelDir c) c.force_renew_model_dir).1
    c.template_model_dir (newModelDir c)

/-- Embeds `create_model_dir` (gridpackgenerator.py lines 89–105): create the
model directory, copy the template tree into it, then rewrite
`parameters.py` in place with both mass placeholders substituted. -/
def create_model_dir (c : ModelCfg) (fs : FS) : FS × Except PyErr Unit :=
  if !(createDirLoose fs (newModelDir c) c.force_renew_model_dir).2 then
    ((createDirLoose fs (newModelDir c) c.force_renew_model_dir).1, .ok ())
  else
    match readFile (modelDirAfterCopy c fs) (paramsPath c) with
    | none => (modelDirAfterCopy c fs, .error (.fileNotFoundError (paramsPath c)))
    | some (.tar _) => (modelDirAfterCopy c fs, .error .typeError)
    | some (.text segs) =>
      match substSegs (paramVals c) segs with
      | .error e => (modelDirAfterCopy c fs, .error e)
      | .ok segs2 =>
        (writeFile (modelDirAfterCopy c fs) (paramsPath c) (.text segs2), .ok ())

end SvjGenprod

namespace SvjGenprod

/-! ## `setup_input_dir` (gridpackgenerator.py lines 116–151) -/

/-- Configuration fields consumed by `setup_input_dir`.  The `lhaIDs`
field is modelled from the spec: the static year→lhaID lookup table is
imported from `svj.genprod.lhaIDs`, which is not under `src/`, so it is
kept abstract as an association-list field. -/
structure InputCfg where
  mg_model_dir : Path
  mg_input_dir : Path
  template_input_dir : Path
  model_name : String
  n_events : Nat
  year : Nat
  lhaIDs : List (Nat × Nat)
  force_renew_input_dir : Bool

/-- Embeds the assignment of `self.new_input_dir`: the model name plus
the suffix `_input`, joined under `mg_input_dir`. -/
def inputDirPath (c : InputCfg) : Path :=
  c.mg_input_dir ++ [c.model_name ++ "_input"]

/-- The tar file produced by `shutil.make_archive` with
`base_name = osp.join(new_input_dir, model_name)` and format `tar`. -/
def inputTarPath (c : InputCfg) : Path :=
  inputDirPath c ++ [c.model_name ++ ".tar"]

/-- The output card path for a template basename: the template name
with the token `modelname` replaced by the model name, inside the new
input directory. -/
def outCardPath (c : InputCfg) (templName : String) : Path :=
  inputDirPath c ++ [pyReplace templName "modelname" c.model_name]

/-- The name of `p` when `p` is a direct child of `dir`. -/
def dirChild (dir p : Path) : Option String :=
  if dir.isPrefixOf p && p.length == dir.length + 1 then p.getLast? else none

/-- Embeds the glob over the template directory: the files directly
inside `dir` whose name ends in `.dat`, with their contents. -/
def globDat (fs : FS) (dir : Path) : List (String × Doc) :=
  fs.files.filterMap fun e =>
    match dirChild dir e.1 with
    | some n => if pyEndsWith n ".dat" then some (n, e.2) else none
    | none => none

/-- The three replacement fields of an input-card template. -/
def cardFields : List String :=
  ["modelName", "totalEvents", "lhaid"]

/-- The values passed to `template.format(...)` in `fill_template`:
`modelName=self.model_name, totalEvents=self.n_events, lhaid=lhaIDs[self.year]`. -/
def cardVals (c : InputCfg) (w : Nat) : List (String × String) :=
  [("modelName", c.model_name), ("totalEvents", toString c.n_events),
    ("lhaid", toString w)]

/-- Embeds `fill_template`: read the card file and format it with the three
named fields. -/
def fillCard (c : InputCfg) (w : Nat) (d : Doc) : Except PyErr Doc :=
  match d with
  | .text segs => (substSegs (cardVals c w) segs).map .text
  | .tar _ => .error .typeError

/-- The per-template loop of `setup_input_dir`: for each template, the
lhaID lookup runs first (as an argument of `fill_template`), then the
template is formatted, then the output card is written.  Returns the
final filesystem, the card writes performed in order, and the result. -/
def processCards (c : InputCfg) :
    List (String × Doc) → FS → FS × List (Path × Doc) × Except PyErr Unit
  | [], fs => (fs, [], .ok ())
  | (n, d) :: rest, fs =>
    match c.lhaIDs.lookup c.year with
    | none => (fs, [], .error (.keyError (toString c.year)))
    | some w =>
      match fillCard c w d with
      | .error e => (fs, [], .error e)
      | .ok d2 =>
        let next := processCards c rest (writeFile fs (outCardPath c n) d2)
        (next.1, (outCardPath c n, d2) :: next.2.1, next.2.2)

/-- The member list of the archive made by `shutil.make_archive` with
`root_dir = root` and `base_dir = base`: every file below
`root ++ [base]`, named relative to `root`. -/
def archiveEntries (fs : FS) (root : Path) (base : String) : List (Path × Doc) :=
  fs.files.filterMap fun e =>
    if (root ++ [base]).isPrefixOf e.1 then some (e.1.drop root.length, e.2) else none

/-- The filesystem after the initial `create_directory` call of
`setup_input_dir`. -/
def inputFsAfterCreate (c : InputCfg) (fs : FS) : FS :=
  (createDirLoose fs (inputDirPath c) c.force_renew_input_dir).1

/-- The template list collected by the `glob.glob` call of
`setup_input_dir`. -/
def setupTemplates (c : InputCfg) (fs : FS) : List (String × Doc) :=
  globDat (inputFsAfterCreate c fs) c.template_input_dir

/-- The observable outcome of `setup_input_dir`: final filesystem, the
formatted card files written (in order), and the result. -/
structure SetupResult where
  fs : FS
  cardWrites : List (Path × Doc)
  res : Except PyErr Unit

/-- Embeds `setup_input_dir` (gridpackgenerator.py lines 116–151): create the
input directory, format every `*.dat` template into it, then call
`shutil.make_archive` with the base name joined from the new input
directory and the model name, tar format, root `mg_model_dir`, and
base `model_name`. -/
def setup_input_dir (c : InputCfg) (fs : FS) : SetupResult :=
  let fs1 := inputFsAfterCreate c fs
  let result := processCards c (setupTemplates c fs) fs1
  match result.2.2 with
  | .error e => ⟨result.1, result.2.1, .error e⟩
  | .ok _ =>
    ⟨writeFile result.1 (inputTarPath c)
        (.tar (archiveEntries result.1 c.mg_model_dir c.model_name)),
      result.2.1, .ok ()⟩

/-- Returns `true` when `d` is a tar archive one of whose member paths contains
the component `name`. -/
def tarMentions (d : Doc) (name : String) : Bool :=
  match d with
  | .tar es => es.any fun e => e.1.contains name
  | .text _ => false

end SvjGenprod

namespace SvjGenprod

/-! ## `compile_gridpack` (gridpackgenerator.py lines 154–207) -/

/-- One element of the command list passed to
`run_multiple_commands`: a shell string or an argument vector. -/
inductive Cmd where
  | shell (s : String)
  | argv (args : List String)
deriving DecidableEq, Repr

/-- Observable events of a run: log lines (modelled structurally) and
subprocess invocations. -/
inductive Event where
  | logContents (p : Path)
  | warnMissingLog (p : Path)
  | warnDeleting (name : String)
  | errorDirExists (outputDir srcDir : Path)
  | runCmd (cmd : List Cmd) (env : List (String × String))
  | copyEvt (src dst : Path)
  | moveEvt (src dst : Path)
  | setLogfile (p : Path)
deriving DecidableEq, Repr

/-- Configuration fields consumed by `compile_gridpack`. -/
structure CompileCfg where
  mg_genprod_dir : Path
  new_input_dir : Path
  model_name : String
  force_renew_gridpack_dir : Bool
  cleanup_gp_generation_dir : Bool

/-- The ambient process state and the external collaborators of
`compile_gridpack`: `os.environ`, and — modelled from the spec, both
live in `svj.core.utils` which is not under `src/` —
`get_clean_env` (an opaque environment transformer) and
`run_multiple_commands` (the blocking subprocess invocation, which may
write files and either succeeds or raises). -/
structure World where
  environ : List (String × String)
  getCleanEnv : List (String × String) → List (String × String)
  runCommands : List Cmd → List (String × String) → FS → FS × Except PyErr Unit

/-- The environment-variable names deleted from the copied environment
(gridpackgenerator.py lines 170–178; `COMPILER_PATH` is listed
twice in the source). -/
def toUnset : List String :=
  ["LD_LIBRARY_PATH", "FC", "COMPILER_PATH", "PYTHONPATH", "CC",
    "COMPILER_PATH", "CXX"]

/-- The local sanitized environment of `compile_gridpack`:
`env = os.environ.copy()` followed by `del env[var]` for each
`var in to_unset` that is present. -/
def sanitizeEnv (env : List (String × String)) : List (String × String) :=
  env.filter fun kv => !(toUnset.contains kv.1)

/-- The length of the longest common prefix of two paths. -/
def commonPrefixLen : Path → Path → Nat
  | a :: as, b :: bs => if a == b then commonPrefixLen as bs + 1 else 0
  | _, _ => 0

/-- Embeds `os.path.relpath` on component lists. -/
def relpath (p base : Path) : Path :=
  let k := commonPrefixLen p base
  List.replicate (base.length - k) ".." ++ p.drop k

/-- Path of `gridpack_generation.sh` inside the generation working
directory. -/
def scriptPath (c : CompileCfg) : Path :=
  c.mg_genprod_dir ++ ["gridpack_generation.sh"]

/-- The per-model generation subdirectory created (and on success
optionally deleted) by `compile_gridpack`. -/
def gpGenDirPath (c : CompileCfg) : Path :=
  c.mg_genprod_dir ++ [c.model_name]

/-- Embeds the `self.logfile` assignment: the model name plus the
suffix `.log`, resolved inside the generation working directory. -/
def compileLogfile (c : CompileCfg) : Path :=
  c.mg_genprod_dir ++ [c.model_name ++ ".log"]

/-- The command list built by `compile_gridpack`: the environment
initialization line followed by the generation script with its two
positional arguments (model name, relative input-cards path). -/
def compileCmd (c : CompileCfg) : List Cmd :=
  [.shell "source /cvmfs/cms.cern.ch/cmsset_default.sh",
    .argv ["bash", "gridpack_generation.sh", c.model_name,
      String.intercalate "/" (relpath c.new_input_dir c.mg_genprod_dir)]]

/-- The observable outcome of `compile_gridpack`: final filesystem,
event trace, the local sanitized environment that was computed, the
value of `self.logfile`, and the result. -/
structure CompileResult where
  fs : FS
  trace : List Event
  sanitizedEnv : List (String × String)
  logfile : Option Path
  res : Except PyErr Unit

/-- Embeds `compile_gridpack` (gridpackgenerator.py lines 154–207): assert the
generation script exists, create the per-model subdirectory, build the
sanitized environment copy, invoke `run_multiple_commands` with
`env=svj.core.utils.get_clean_env()`, delete the generation
subdirectory on success when cleanup is enabled, and on
`CalledProcessError` log the `<model_name>.log` file when present
(only warn when absent) before re-raising. -/
def compile_gridpack (c : CompileCfg) (w : World) (fs : FS) : CompileResult :=
  if !(isFile fs (scriptPath c)) then
    ⟨fs, [], [], none, .error .assertionError⟩
  else
    match create_directory fs (gpGenDirPath c) c.force_renew_gridpack_dir true with
    | .error e => ⟨fs, [], [], some (compileLogfile c), .error e⟩
    | .ok (fs1, _) =>
      let sanitized := sanitizeEnv w.environ
      let runEnv := w.getCleanEnv w.environ
      let run := w.runCommands (compileCmd c) runEnv fs1
      let ev := Event.runCmd (compileCmd c) runEnv
      match run.2 with
      | .ok _ =>
        if c.cleanup_gp_generation_dir then
          ⟨removeTree run.1 (gpGenDirPath c), [ev, .warnDeleting c.model_name],
            sanitized, some (compileLogfile c), .ok ()⟩
        else
          ⟨run.1, [ev], sanitized, some (compileLogfile c), .ok ()⟩
      | .error (.calledProcessError rc) =>
        if isFile run.1 (compileLogfile c) then
          ⟨run.1, [ev, .logContents (compileLogfile c)], sanitized,
            some (compileLogfile c), .error (.calledProcessError rc)⟩
        else
          ⟨run.1, [ev, .warnMissingLog (compileLogfile c)], sanitized,
            some (compileLogfile c), .error (.calledProcessError rc)⟩
      | .error e =>
        ⟨run.1, [ev], sanitized, some (compileLogfile c), .error e⟩

/-- The number of subprocess invocations recorded in a trace. -/
def runCount (tr : List Event) : Nat :=
  (tr.filter fun e => match e with | .runCmd _ _ => true | _ => false).length

end SvjGenprod

namespace SvjGenprod

/-! ## Output transfer (gridpackgenerator.py lines 212–265) -/

/-- Configuration fields consumed by the output-transfer methods. -/
structure OutCfg where
  mg_genprod_dir : Path
  svj_output_dir : Path
  model_name : String

/-- Embeds the glob of `_get_output_files_and_dirs`: the files and
directories directly inside the generation working directory whose
name starts with the model name. -/
def outputSrcs (c : OutCfg) (fs : FS) : List Path :=
  (fs.files.map (·.1) ++ fs.dirs).filter fun p =>
    p.length == c.mg_genprod_dir.length + 1 && c.mg_genprod_dir.isPrefixOf p &&
      pyStartsWith (basename p) c.model_name

/-- The generated default output directory: the strftime timestamp
prefix (passed in as `now`) concatenated with the model name, joined
under `SVJ_OUTPUT_DIR`. -/
def defaultOutputDir (c : OutCfg) (now : String) : Path :=
  c.svj_output_dir ++ [now ++ c.model_name]

/-- Embeds `_make_output_directory` (gridpackgenerator.py lines 218–240):
create the destination with must-not-exist semantics; on `OSError` log
an error naming both the conflicting destination and the generation
working directory where the artifacts still are, then re-raise. -/
def make_output_directory (c : OutCfg) (now : String) (outputDir : Option Path)
    (fs : FS) : FS × List Event × Except PyErr Path :=
  let target := outputDir.getD (defaultOutputDir c now)
  match create_directory fs target false true with
  | .error e => (fs, [.errorDirExists target c.mg_genprod_dir], .error e)
  | .ok (fs1, _) => (fs1, [], .ok target)

/-- Rewrite `q` by relocating the subtree at `src` to `dst`. -/
def prefixRewrite (src dst q : Path) : Path :=
  if src.isPrefixOf q then dst ++ q.drop src.length else q

/-- Embeds `shutil.move` (for a fresh destination): rename a regular
file, or relocate a whole directory subtree. -/
def shutilMove (fs : FS) (src dst : Path) : Except PyErr FS :=
  match readFile fs src with
  | some d =>
    .ok (writeFile { fs with files := fs.files.filter fun e => !(e.1 == src) } dst d)
  | none =>
    if isDir fs src then
      .ok { files := fs.files.map fun e => (prefixRewrite src dst e.1, e.2),
            dirs := fs.dirs.map (prefixRewrite src dst) }
    else .error (.fileNotFoundError src)

/-- Embeds `shutil.copyfile`: copy the contents of a regular file; raises
`IsADirectoryError` when `src` is a directory. -/
def shutilCopyfile (fs : FS) (src dst : Path) : Except PyErr FS :=
  match readFile fs src with
  | some d => .ok (writeFile fs dst d)
  | none =>
    if isDir fs src then .error (.isADirectoryError src)
    else .error (.fileNotFoundError src)

/-- The per-source loop of `_transfer_to_output`: for each source,
copy or move it to `outDir` (skipped when `dry`), then — whether or
not `dry` — reassign `self.logfile` when the source path ends in
`.log`. -/
def transferLoop (outDir : Path) (move dry : Bool) :
    List Path → FS → Option Path → FS × List Event × Option Path × Except PyErr Unit
  | [], fs, lf => (fs, [], lf, .ok ())
  | src :: rest, fs, lf =>
    let dst := outDir ++ [basename src]
    let opEv : Event := if move then .moveEvt src dst else .copyEvt src dst
    let step : Except PyErr FS :=
      if dry then .ok fs
      else if move then shutilMove fs src dst
      else shutilCopyfile fs src dst
    match step with
    | .error e => (fs, [opEv], lf, .error e)
    | .ok fs2 =>
      let isLog := pyEndsWith (basename src) ".log"
      let lf2 := if isLog then some dst else lf
      let evLog : List Event := if isLog then [.setLogfile dst] else []
      let next := transferLoop outDir move dry rest fs2 lf2
      (next.1, opEv :: (evLog ++ next.2.1), next.2.2.1, next.2.2.2)

/-- The observable outcome of `_transfer_to_output`: final filesystem,
event trace, the value of `self.logfile`, and the result. -/
structure TransferResult where
  fs : FS
  trace : List Event
  logfile : Option Path
  res : Except PyErr Unit

/-- Embeds `_transfer_to_output` (gridpackgenerator.py lines 243–258): collect
the matched sources, create the destination directory, then copy or
move each source there, tracking the relocated log file. -/
def transfer_to_output (c : OutCfg) (now : String) (move : Bool)
    (outputDir : Option Path) (dry : Bool) (logfile0 : Option Path) (fs : FS) :
    TransferResult :=
  let srcs := outputSrcs c fs
  match make_output_directory c now outputDir fs with
  | (fs1, evs, .error e) => ⟨fs1, evs, logfile0, .error e⟩
  | (fs1, evs, .ok target) =>
    let next := transferLoop target move dry srcs fs1 logfile0
    ⟨next.1, evs ++ next.2.1, next.2.2.1, next.2.2.2⟩

/-- Embeds `copy_to_output` (gridpackgenerator.py lines 261–262). -/
def copy_to_output (c : OutCfg) (now : String) (outputDir : Option Path)
    (dry : Bool) (logfile0 : Option Path) (fs : FS) : TransferResult :=
  transfer_to_output c now false outputDir dry logfile0 fs

/-- Embeds `move_to_output` (gridpackgenerator.py lines 264–265). -/
def move_to_output (c : OutCfg) (now : String) (outputDir : Option Path)
    (dry : Bool) (logfile0 : Option Path) (fs : FS) : TransferResult :=
  transfer_to_output c now true outputDir dry logfile0 fs

/-- The value of `self.logfile` after a dry transfer over the given
sources. -/
def dryLogfile (outDir : Path) : List Path → Option Path → Option Path
  | [], lf => lf
  | src :: rest, lf =>
    dryLogfile outDir rest
      (if pyEndsWith (basename src) ".log" then some (outDir ++ [basename src]) else lf)

/-- The event trace of a dry transfer over the given sources. -/
def dryTrace (outDir : Path) (move : Bool) : List Path → List Event
  | [] => []
  | src :: rest =>
    let dst := outDir ++ [basename src]
    (if move then Event.moveEvt src dst else Event.copyEvt src dst) ::
      ((if pyEndsWith (basename src) ".log" then [Event.setLogfile dst] else []) ++
        dryTrace outDir move rest)

end SvjGenprod

namespace SvjGenprod

/-! ## `define_paths` (gridpackgenerator.py lines 55–78) -/

/-- The configuration fields consumed by `define_paths`
(`process_type`, the optional `lowmassZ` flag, and the derived
`model_name`). -/
structure GenConf where
  process_type : String
  lowmassZ : Bool
  model_name : String

/-- Embeds the channel derivation of line 41: `process_type` with every
occurrence of the suffix marker removed by `str.replace`. -/
def channelOf (c : GenConf) : String :=
  pyReplace c.process_type "-channel" ""

/-- The path attributes assigned by `define_paths`. -/
structure PathSet where
  med_type : String
  template_model_dir : Path
  template_input_dir : Path
  new_model_dir : Path

/-- Embeds `define_paths` (gridpackgenerator.py lines 55–78): selects the
template directories from the channel, raising `ValueError` on an
unknown channel.  The filesystem is threaded through unchanged, as the
source performs no filesystem operation here. -/
def define_paths (svjInputDir mgModelDir : Path) (c : GenConf) (fs : FS) :
    FS × Except PyErr PathSet :=
  if channelOf c = "s" then
    (fs, .ok
      { med_type := "Zp"
        template_model_dir :=
          svjInputDir ++ ["mg_model_templates/DMsimp_SVJ_s_spin1_template"]
        template_input_dir :=
          if c.lowmassZ then
            svjInputDir ++ ["mg_input_templates/DMsimp_SVJ_s_spin1_lowmassZ_input_template"]
          else
            svjInputDir ++ ["mg_input_templates/DMsimp_SVJ_s_spin1_input_template"]
        new_model_dir := mgModelDir ++ [c.model_name] })
  else if channelOf c = "t" then
    (fs, .ok
      { med_type := "Phi"
        template_model_dir :=
          svjInputDir ++ ["mg_model_templates/DMsimp_SVJ_t_template"]
        template_input_dir :=
          svjInputDir ++ ["mg_input_templates/DMsimp_SVJ_t_input_template"]
        new_model_dir := mgModelDir ++ [c.model_name] })
  else
    (fs, .error (.valueError ("Unknown channel " ++ channelOf c)))

end SvjGenprod

namespace SvjGenprod

/-! ## Concrete instances used by witnesses and counterexamples -/

/-- Concrete model configuration for the `create_model_dir` witness. -/
def mcW7 : ModelCfg :=
  { template_model_dir := ["tmpl"], mg_model_dir := ["models"], model_name := "M",
    m_d := 5, m_med := 1500, force_renew_model_dir := true }

/-- Concrete `parameters.py` template with both mass placeholders. -/
def tW7 : List Seg :=
  [.lit "dq=", .hole "dark_quark_mass", .lit " mm=", .hole "mediator_mass"]

/-- Concrete filesystem holding the template model directory. -/
def fsW7 : FS :=
  { files := [(["tmpl", "parameters.py"], .text tW7)], dirs := [] }

/-- Concrete input configuration (year present in the lhaID table). -/
def cW8 : InputCfg :=
  { mg_model_dir := ["mg", "models"], mg_input_dir := ["mg", "inputs"],
    template_input_dir := ["tmplin"], model_name := "M", n_events := 10,
    year := 2018, lhaIDs := [(2018, 325300)], force_renew_input_dir := true }

/-- Concrete filesystem with one input-card template and one file in
the new model directory. -/
def fsW8 : FS :=
  { files :=
      [(["tmplin", "modelname_run.dat"],
          .text [.hole "modelName", .lit " ev ", .hole "totalEvents", .lit " id ",
            .hole "lhaid"]),
        (["mg", "models", "M", "modelfile.py"], .text [.lit "model"])],
    dirs := [] }

/-- The formatted card that `setup_input_dir` writes for `cW8`/`fsW8`. -/
def cardDocW8 : Doc :=
  .text [.lit "M", .lit " ev ", .lit "10", .lit " id ", .lit "325300"]

/-- Concrete input configuration whose year is absent from the lhaID
table. -/
def cC4 : InputCfg :=
  { mg_model_dir := ["mg", "models"], mg_input_dir := ["mg", "inputs"],
    template_input_dir := ["tmplin"], model_name := "M", n_events := 10,
    year := 2018, lhaIDs := [(2016, 100)], force_renew_input_dir := true }

/-- Concrete filesystem with no `.dat` template at all, but with the
model directory populated, so that the archive step at the end of
`setup_input_dir` has an existing tree to tar and the run completes. -/
def fsC4 : FS :=
  { files := [(["mg", "models", "M", "modelfile.py"], .text [.lit "model"])],
    dirs := [["mg", "models", "M"]] }

/-- Concrete filesystem with one `.dat` template. -/
def fsC4a : FS :=
  { files := [(["tmplin", "modelname_run.dat"], .text [.hole "modelName"])], dirs := [] }

/-- Concrete compile configuration. -/
def cfgB : CompileCfg :=
  { mg_genprod_dir := ["gp"], new_input_dir := ["mg", "inputs", "M_input"],
    model_name := "M", force_renew_gridpack_dir := true,
    cleanup_gp_generation_dir := false }

/-- Concrete filesystem with the generation script present. -/
def fsB : FS :=
  { files := [(["gp", "gridpack_generation.sh"], .text [.lit "script"])], dirs := [] }

/-- Concrete world whose subprocess succeeds and whose
`get_clean_env` collaborator returns an empty environment. -/
def wB : World :=
  { environ := [("PATH", "/usr/bin"), ("CC", "gcc")],
    getCleanEnv := fun _ => [],
    runCommands := fun _ _ fsx => (fsx, .ok ()) }

/-- Concrete world whose subprocess fails with return code 1 and
leaves the filesystem unchanged (so no log file appears). -/
def wC3 : World :=
  { environ := [("PATH", "/usr/bin"), ("CC", "gcc")],
    getCleanEnv := fun _ => [],
    runCommands := fun _ _ fsx => (fsx, .error (.calledProcessError 1)) }

/-- Concrete output-transfer configuration. -/
def cOut : OutCfg :=
  { mg_genprod_dir := ["gp"], svj_output_dir := ["out"], model_name := "M" }

/-- Concrete filesystem where the requested destination `["dest"]`
already exists. -/
def fsC5 : FS :=
  { files := [(["gp", "M.log"], .text [.lit "log"])], dirs := [["dest"]] }

/-- Concrete filesystem with one matched log file and no destination
directory. -/
def fsC9 : FS :=
  { files := [(["gp", "M.log"], .text [.lit "log"])], dirs := [] }

/-- Concrete filesystem where the glob matches one regular file and
one directory. -/
def fsC10 : FS :=
  { files := [(["gp", "M.log"], .text [.lit "log"])], dirs := [["gp", "M_gridpack"]] }

end SvjGenprod

namespace SvjGenprod

/-! ## Generic lemmas about the filesystem model and substitution -/

/-- Reading back a file that was just written yields its contents. -/
theorem readFile_writeFile (fs : FS) (p : Path) (d : Doc) :
    readFile (writeFile fs p d) p = some d := by
  simp [readFile, writeFile]

/-- Substituting with all placeholders supplied succeeds, removes
every placeholder, and inserts each supplied value at the place of its
placeholder. -/
theorem substSegs_spec (vals : List (String × String)) (segs : List Seg)
    (h : ∀ n, Seg.hole n ∈ segs → (vals.lookup n).isSome = true) :
    ∃ segs2, substSegs vals segs = .ok segs2 ∧ noHoles segs2 = true ∧
      ∀ n v, Seg.hole n ∈ segs → vals.lookup n = some v → Seg.lit v ∈ segs2 := by
  induction segs with
  | nil => exact ⟨[], rfl, rfl, by simp⟩
  | cons s rest ih =>
    cases s with
    | lit str =>
      obtain ⟨s2, hok, hnh, hmem⟩ := ih (fun n hn => h n (by simp [hn]))
      refine ⟨.lit str :: s2, ?_, ?_, ?_⟩
      · simp [substSegs, hok, Except.map]
      · simpa [noHoles] using hnh
      · intro n v hn hv
        rcases List.mem_cons.mp hn with heq | hmem2
        · simp at heq
        · exact List.mem_cons_of_mem _ (hmem n v hmem2 hv)
    | hole n0 =>
      have h0 := h n0 (by simp)
      obtain ⟨v0, hv0⟩ := Option.isSome_iff_exists.mp h0
      obtain ⟨s2, hok, hnh, hmem⟩ := ih (fun n hn => h n (by simp [hn]))
      refine ⟨.lit v0 :: s2, ?_, ?_, ?_⟩
      · simp [substSegs, hv0, hok, Except.map]
      · simpa [noHoles] using hnh
      · intro n v hn hv
        rcases List.mem_cons.mp hn with heq | hmem2
        · injection heq with hnn
          subst hnn
          rw [hv0] at hv
          injection hv with hvv
          subst hvv
          simp
        · exact List.mem_cons_of_mem _ (hmem n v hmem2 hv)

/-- A document all of whose placeholders are in `allowed` only needs
lookups of allowed names. -/
theorem holesOnly_lookup (allowed : List String) (vals : List (String × String))
    (segs : List Seg) (h : holesOnly allowed segs = true)
    (hv : ∀ n ∈ allowed, (vals.lookup n).isSome = true) :
    ∀ n, Seg.hole n ∈ segs → (vals.lookup n).isSome = true := by
  intro n hn
  have hx := (List.all_eq_true.mp h) _ hn
  simp only [List.contains, List.elem_eq_mem, decide_eq_true_eq] at hx
  exact hv n hx

/-- C7: given a `parameters.py` template in the copied model directory
containing both mass placeholders and no other placeholder,
`create_model_dir` rewrites the file in place so that the result has
no remaining placeholder and contains `str(m_d)` and `str(m_med)`. -/
theorem create_model_dir_params (c : ModelCfg) (fs : FS) (T : List Seg)
    (hCreated : (createDirLoose fs (newModelDir c) c.force_renew_model_dir).2 = true)
    (hT : readFile (modelDirAfterCopy c fs) (paramsPath c) = some (.text T))
    (hdq : Seg.hole "dark_quark_mass" ∈ T)
    (hmed : Seg.hole "mediator_mass" ∈ T)
    (hOnly : holesOnly ["dark_quark_mass", "mediator_mass"] T = true) :
    ∃ T2, (create_model_dir c fs).2 = .ok () ∧
      readFile (create_model_dir c fs).1 (paramsPath c) = some (.text T2) ∧
      noHoles T2 = true ∧
      Seg.lit (toString c.m_d) ∈ T2 ∧ Seg.lit (toString c.m_med) ∈ T2 := by
  have hv : ∀ n ∈ (["dark_quark_mass", "mediator_mass"] : List String),
      (((paramVals c).lookup n).isSome = true) := by
    intro n hn
    rcases List.mem_cons.mp hn with h1 | h1
    · subst h1; rfl
    · simp at h1; subst h1; rfl
  obtain ⟨T2, hok, hnh, hmem⟩ :=
    substSegs_spec (paramVals c) T (holesOnly_lookup _ _ _ hOnly hv)
  have hred : create_model_dir c fs =
      (writeFile (modelDirAfterCopy c fs) (paramsPath c) (.text T2), .ok ()) := by
    unfold create_model_dir
    rw [hCreated, hT]
    simp [hok]
  refine ⟨T2, ?_, ?_, hnh, ?_, ?_⟩
  · rw [hred]
  · rw [hred]; exact readFile_writeFile _ _ _
  · exact hmem _ _ hdq rfl
  · exact hmem _ _ hmed rfl

/-- Witness for C7 at the concrete model configuration `mcW7` and
filesystem `fsW7`. -/
theorem create_model_dir_params_witness :
    ∃ T2, (create_model_dir mcW7 fsW7).2 = .ok () ∧
      readFile (create_model_dir mcW7 fsW7).1 (paramsPath mcW7) = some (.text T2) ∧
      noHoles T2 = true ∧
      Seg.lit (toString mcW7.m_d) ∈ T2 ∧ Seg.lit (toString mcW7.m_med) ∈ T2 :=
  create_model_dir_params mcW7 fsW7 tW7 rfl rfl (by decide) (by decide) (by decide)

end SvjGenprod

namespace SvjGenprod

/-- C6: For every configuration whose derived channel is neither `s`
nor `t`, `define_paths` fails with an invalid-channel `ValueError` and
returns the filesystem unchanged (no filesystem mutation). -/
theorem define_paths_invalid_channel (svjInputDir mgModelDir : Path)
    (c : GenConf) (fs : FS)
    (hs : channelOf c ≠ "s") (ht : channelOf c ≠ "t") :
    define_paths svjInputDir mgModelDir c fs =
      (fs, .error (.valueError ("Unknown channel " ++ channelOf c))) := by
  simp [define_paths, hs, ht]

/-- Witness for C6 at a concrete configuration with
`process_type = "u-channel"` (derived channel `"u"`). -/
theorem define_paths_invalid_channel_witness :
    define_paths ["in"] ["models"]
        { process_type := "u-channel", lowmassZ := false, model_name := "M" }
        { files := [], dirs := [] } =
      ({ files := [], dirs := [] },
        .error (.valueError ("Unknown channel " ++
          channelOf { process_type := "u-channel", lowmassZ := false, model_name := "M" }))) :=
  define_paths_invalid_channel _ _ _ _ (by decide) (by decide)

end SvjGenprod

namespace SvjGenprod

/-! ## Theorems about `setup_input_dir` -/

/-- A card template all of whose placeholders are among the three card
fields formats successfully. -/
theorem fillCard_spec (c : InputCfg) (w : Nat) (d : Doc)
    (h : isTextWithHoles cardFields d = true) :
    ∃ segs segs2, d = .text segs ∧
      substSegs (cardVals c w) segs = .ok segs2 ∧
      fillCard c w d = .ok (.text segs2) := by
  cases d with
  | tar es => simp [isTextWithHoles] at h
  | text segs =>
    have hv : ∀ n ∈ cardFields, (((cardVals c w).lookup n).isSome = true) := by
      intro n hn
      simp [cardFields] at hn
      rcases hn with rfl | rfl | rfl <;> rfl
    obtain ⟨segs2, hok, _, _⟩ :=
      substSegs_spec (cardVals c w) segs (holesOnly_lookup _ _ _ h hv)
    exact ⟨segs, segs2, rfl, hok, by simp [fillCard, hok, Except.map]⟩

/-- Reduction of `processCards` on a successfully formatted head. -/
theorem processCards_cons_ok (c : InputCfg) (n : String) (d : Doc)
    (rest : List (String × Doc)) (fs : FS) (w : Nat) (d2 : Doc)
    (hy : c.lhaIDs.lookup c.year = some w)
    (hfill : fillCard c w d = .ok d2) :
    processCards c ((n, d) :: rest) fs =
      ((processCards c rest (writeFile fs (outCardPath c n) d2)).1,
        (outCardPath c n, d2) ::
          (processCards c rest (writeFile fs (outCardPath c n) d2)).2.1,
        (processCards c rest (writeFile fs (outCardPath c n) d2)).2.2) := by
  conv_lhs => rw [processCards]
  rw [hy]
  simp only []
  rw [hfill]

/-- The card loop succeeds and performs exactly one write per
template, with the formatted contents, when the year is in the table
and every template is well-formed. -/
theorem processCards_spec (c : InputCfg) (w : Nat)
    (hy : c.lhaIDs.lookup c.year = some w) :
    ∀ (ts : List (String × Doc)) (fs : FS),
    (∀ nd ∈ ts, isTextWithHoles cardFields nd.2 = true) →
    (processCards c ts fs).2.2 = .ok () ∧
    List.Forall₂ (fun nd wr =>
        wr.1 = outCardPath c nd.1 ∧
        ∃ segs segs2, nd.2 = .text segs ∧
          substSegs (cardVals c w) segs = .ok segs2 ∧ wr.2 = .text segs2)
      ts (processCards c ts fs).2.1 := by
  intro ts
  induction ts with
  | nil => exact fun fs _ => ⟨rfl, .nil⟩
  | cons nd rest ih =>
    intro fs h
    obtain ⟨n, d⟩ := nd
    obtain ⟨segs, segs2, hd, hsub, hfill⟩ :=
      fillCard_spec c w d (h (n, d) (by simp))
    have hred := processCards_cons_ok c n d rest fs w (.text segs2) hy hfill
    obtain ⟨ihok, ihfa⟩ :=
      ih (writeFile fs (outCardPath c n) (.text segs2))
        (fun nd2 hnd2 => h nd2 (List.mem_cons_of_mem _ hnd2))
    rw [hred]
    exact ⟨ihok, .cons ⟨rfl, segs, segs2, hd, hsub, rfl⟩ ihfa⟩

/-- C8: for every `.dat` template in the template input directory,
`setup_input_dir` writes exactly one output card whose name is the
template basename with `modelname` replaced by the model name, and
whose contents are the template text with `modelName`, `totalEvents`
and `lhaid` substituted by the model name, the event count, and the
lhaID looked up by year. -/
theorem setup_input_dir_formats_each_template (c : InputCfg) (fs : FS) (w : Nat)
    (hy : c.lhaIDs.lookup c.year = some w)
    (hT : ∀ nd ∈ setupTemplates c fs, isTextWithHoles cardFields nd.2 = true) :
    (setup_input_dir c fs).res = .ok () ∧
    List.Forall₂ (fun nd wr =>
        wr.1 = outCardPath c nd.1 ∧
        ∃ segs segs2, nd.2 = .text segs ∧
          substSegs (cardVals c w) segs = .ok segs2 ∧ wr.2 = .text segs2)
      (setupTemplates c fs) (setup_input_dir c fs).cardWrites := by
  obtain ⟨hok, hfa⟩ :=
    processCards_spec c w hy (setupTemplates c fs) (inputFsAfterCreate c fs) hT
  constructor
  · simp [setup_input_dir, hok]
  · simpa [setup_input_dir, hok] using hfa

/-- Witness for C8 at the concrete configuration `cW8`/`fsW8`: the run
succeeds, one card per template is written, and the single write is
the formatted card. -/
theorem setup_input_dir_formats_each_template_witness :
    (setup_input_dir cW8 fsW8).res = .ok () ∧
    (setup_input_dir cW8 fsW8).cardWrites.length =
      (setupTemplates cW8 fsW8).length ∧
    (setup_input_dir cW8 fsW8).cardWrites =
      [(["mg", "inputs", "M_input", "M_run.dat"], cardDocW8)] := by
  have h := setup_input_dir_formats_each_template cW8 fsW8 325300 rfl (by decide)
  exact ⟨h.1, (h.2.length_eq).symm, rfl⟩

end SvjGenprod

namespace SvjGenprod

/-- Counterexample to C4 as stated: with the year absent from the
lhaID table but no `.dat` template present (and the model directory in
place for the final archive step), `setup_input_dir` does not fail at
all — the table is only consulted inside the per-template loop, so the
run completes successfully, through to writing the tar file. -/
theorem setup_input_dir_missing_year_no_failure :
    cC4.lhaIDs.lookup cC4.year = none ∧
    (setup_input_dir cC4 fsC4).res = .ok () ∧
    readFile (setup_input_dir cC4 fsC4).fs (inputTarPath cC4) =
      some (.tar [(["M", "modelfile.py"], .text [.lit "model"])]) :=
  ⟨rfl, rfl, rfl⟩

/-- C4 (amended): if the year is absent from the lhaID table and at
least one `.dat` template exists, `setup_input_dir` fails with a
`KeyError` before any output card has been written (no card writes,
and the filesystem is exactly the state after the initial directory
creation). -/
theorem setup_input_dir_missing_year (c : InputCfg) (fs : FS)
    (hy : c.lhaIDs.lookup c.year = none)
    (hne : setupTemplates c fs ≠ []) :
    (setup_input_dir c fs).res = .error (.keyError (toString c.year)) ∧
    (setup_input_dir c fs).cardWrites = [] ∧
    (setup_input_dir c fs).fs = inputFsAfterCreate c fs := by
  obtain ⟨nd, rest, hts⟩ := List.exists_cons_of_ne_nil hne
  obtain ⟨n, d⟩ := nd
  have hred : processCards c ((n, d) :: rest) (inputFsAfterCreate c fs) =
      (inputFsAfterCreate c fs, [], .error (.keyError (toString c.year))) := by
    conv_lhs => rw [processCards]
    rw [hy]
  unfold setup_input_dir
  rw [hts]
  simp only []
  rw [hred]
  exact ⟨rfl, rfl, rfl⟩

/-- Witness for the amended C4 at the concrete configuration `cC4`
(year 2018 absent from the table) and filesystem `fsC4a` (one `.dat`
template). -/
theorem setup_input_dir_missing_year_witness :
    (setup_input_dir cC4 fsC4a).res = .error (.keyError (toString cC4.year)) ∧
    (setup_input_dir cC4 fsC4a).cardWrites = [] ∧
    (setup_input_dir cC4 fsC4a).fs = inputFsAfterCreate cC4 fsC4a :=
  setup_input_dir_missing_year cC4 fsC4a rfl
    (fun h => absurd (congrArg List.length h) (by decide))

end SvjGenprod

namespace SvjGenprod

/-- Every member of the archive made from `root`/`base` lies below
`root ++ [base]` once its relative name is rejoined to the root. -/
theorem archiveEntries_below_base (fs : FS) (root : Path) (base : String)
    (ent : Path × Doc) (h : ent ∈ archiveEntries fs root base) :
    (root ++ [base]).isPrefixOf (root ++ ent.1) = true := by
  obtain ⟨e, he, hcond⟩ := List.mem_filterMap.mp h
  by_cases hp : (root ++ [base]).isPrefixOf e.1 = true
  · rw [if_pos hp] at hcond
    have hent := Option.some.inj hcond
    subst hent
    have hpre : root <+: e.1 := by
      have h1 : root <+: root ++ [base] := List.prefix_append root [base]
      exact h1.trans (List.isPrefixOf_iff_prefix.mp hp)
    have hjoin : root ++ e.1.drop root.length = e.1 :=
      List.prefix_iff_eq_append.mp hpre
    show (root ++ [base]).isPrefixOf (root ++ e.1.drop root.length) = true
    rw [hjoin]
    exact hp
  · rw [if_neg hp] at hcond
    cases hcond

/-- C1 (amended): the tar file is created at
`<new_input_dir>/<model_name>.tar`, but it archives the model
directory `<mg_model_dir>/<model_name>` (the archive root is
`mg_model_dir`, so member names start with the model-name component);
none of the formatted input cards, which live in the input directory,
is among its members. -/
theorem setup_input_dir_tar_root_is_model_dir (c : InputCfg) (fs : FS) (w : Nat)
    (hy : c.lhaIDs.lookup c.year = some w)
    (hT : ∀ nd ∈ setupTemplates c fs, isTextWithHoles cardFields nd.2 = true)
    (hSep : ∀ wr ∈ (setup_input_dir c fs).cardWrites,
      (c.mg_model_dir ++ [c.model_name]).isPrefixOf wr.1 = false) :
    ∃ E, readFile (setup_input_dir c fs).fs (inputTarPath c) = some (.tar E) ∧
      (∀ ent ∈ E,
        (c.mg_model_dir ++ [c.model_name]).isPrefixOf (c.mg_model_dir ++ ent.1) = true) ∧
      (∀ ent ∈ E, ∀ wr ∈ (setup_input_dir c fs).cardWrites,
        c.mg_model_dir ++ ent.1 ≠ wr.1) := by
  obtain ⟨hok, _⟩ :=
    processCards_spec c w hy (setupTemplates c fs) (inputFsAfterCreate c fs) hT
  have hfs : (setup_input_dir c fs).fs =
      writeFile (processCards c (setupTemplates c fs) (inputFsAfterCreate c fs)).1
        (inputTarPath c)
        (.tar (archiveEntries
          (processCards c (setupTemplates c fs) (inputFsAfterCreate c fs)).1
          c.mg_model_dir c.model_name)) := by
    simp [setup_input_dir, hok]
  refine ⟨archiveEntries
      (processCards c (setupTemplates c fs) (inputFsAfterCreate c fs)).1
      c.mg_model_dir c.model_name, ?_, ?_, ?_⟩
  · rw [hfs]; exact readFile_writeFile _ _ _
  · intro ent hent
    exact archiveEntries_below_base _ _ _ ent hent
  · intro ent hent wr hwr heq
    have h1 := archiveEntries_below_base _ _ _ ent hent
    rw [heq, hSep wr hwr] at h1
    cases h1

/-- Witness for the amended C1 at `cW8`/`fsW8`: the tar lands beside
the cards but holds the model-directory file, whose rejoined path is
below the model directory and differs from the written card path. -/
theorem setup_input_dir_tar_root_witness :
    readFile (setup_input_dir cW8 fsW8).fs (inputTarPath cW8) =
      some (.tar [(["M", "modelfile.py"], Doc.text [.lit "model"])]) ∧
    (cW8.mg_model_dir ++ [cW8.model_name]).isPrefixOf
      (cW8.mg_model_dir ++ ["M", "modelfile.py"]) = true ∧
    cW8.mg_model_dir ++ ["M", "modelfile.py"] ≠
      ["mg", "inputs", "M_input", "M_run.dat"] := by
  obtain ⟨E, h1, h2, h3⟩ :=
    setup_input_dir_tar_root_is_model_dir cW8 fsW8 325300 rfl (by decide) (by decide)
  have h0 : readFile (setup_input_dir cW8 fsW8).fs (inputTarPath cW8) =
      some (Doc.tar [(["M", "modelfile.py"], Doc.text [.lit "model"])]) := rfl
  have hE : E = [(["M", "modelfile.py"], Doc.text [.lit "model"])] := by
    have := Option.some.inj (h1.symm.trans h0)
    injection this
  subst hE
  exact ⟨h0, h2 _ (.head _), h3 _ (.head _) _ (.head _)⟩

/-- Counterexample to C1 as stated: at `cW8`/`fsW8` one formatted
input card (`M_run.dat`) is written, yet the tar file created at
`<new_input_dir>/M.tar` holds only the model-directory file and no
member of it mentions the card. -/
theorem setup_input_dir_tar_omits_cards :
    (setup_input_dir cW8 fsW8).cardWrites =
      [(["mg", "inputs", "M_input", "M_run.dat"], cardDocW8)] ∧
    readFile (setup_input_dir cW8 fsW8).fs (inputTarPath cW8) =
      some (.tar [(["M", "modelfile.py"], .text [.lit "model"])]) ∧
    tarMentions (.tar [(["M", "modelfile.py"], .text [.lit "model"])]) "M_run.dat" = false :=
  ⟨rfl, rfl, rfl⟩

end SvjGenprod

namespace SvjGenprod

/-! ## Theorems about `compile_gridpack` -/

/-- Deleting the seven-entry `to_unset` list (with its duplicated
`COMPILER_PATH`) removes exactly the six distinct denylisted
variables. -/
theorem sanitizeEnv_eq_filter_denylist (env : List (String × String)) :
    sanitizeEnv env = env.filter
      (fun kv =>
        !(["LD_LIBRARY_PATH", "FC", "COMPILER_PATH", "PYTHONPATH", "CC",
            "CXX"].contains kv.1)) := by
  unfold sanitizeEnv
  apply List.filter_congr
  intro kv _
  have hmem : (kv.1 ∈ toUnset) ↔
      (kv.1 ∈ (["LD_LIBRARY_PATH", "FC", "COMPILER_PATH", "PYTHONPATH", "CC",
        "CXX"] : List String)) := by
    simp [toUnset]
    tauto
  simp only [List.contains, List.elem_eq_mem]
  rw [decide_eq_decide.mpr hmem]

/-- Counterexample to C2 as stated: with a possible `get_clean_env`
collaborator returning the empty environment, the generation
subprocess receives the empty environment, not the locally computed
sanitized copy of `os.environ` (which here is
`[("PATH", "/usr/bin")]`) — the sanitized copy is dead code. -/
theorem compile_gridpack_env_not_sanitized :
    (compile_gridpack cfgB wB fsB).trace = [Event.runCmd (compileCmd cfgB) []] ∧
    sanitizeEnv wB.environ = [("PATH", "/usr/bin")] ∧
    Event.runCmd (compileCmd cfgB) (sanitizeEnv wB.environ) ∉
      (compile_gridpack cfgB wB fsB).trace := by
  refine ⟨rfl, rfl, ?_⟩
  decide

/-- C2 (amended): `compile_gridpack` computes a sanitized environment
copy equal to `os.environ` with exactly the six denylisted variables
removed, but never passes it on: every subprocess invocation in the
trace uses the environment returned by the external
`svj.core.utils.get_clean_env` collaborator instead. -/
theorem compile_gridpack_uses_get_clean_env (c : CompileCfg) (w : World)
    (fs fs1 : FS) (created : Bool)
    (hScript : isFile fs (scriptPath c) = true)
    (hDir : create_directory fs (gpGenDirPath c) c.force_renew_gridpack_dir true =
      .ok (fs1, created)) :
    (compile_gridpack c w fs).sanitizedEnv = sanitizeEnv w.environ ∧
    sanitizeEnv w.environ = w.environ.filter
      (fun kv =>
        !(["LD_LIBRARY_PATH", "FC", "COMPILER_PATH", "PYTHONPATH", "CC",
            "CXX"].contains kv.1)) ∧
    ∀ cmd env2, Event.runCmd cmd env2 ∈ (compile_gridpack c w fs).trace →
      env2 = w.getCleanEnv w.environ := by
  unfold compile_gridpack
  rw [hScript, hDir]
  simp only [Bool.not_true, Bool.false_eq_true, if_false]
  refine ⟨?_, sanitizeEnv_eq_filter_denylist w.environ, ?_⟩
  · split <;> first | rfl | (split <;> rfl)
  · intro cmd env2 hmem
    revert hmem
    split
    · split <;> (intro hmem; simp at hmem; exact hmem.2)
    · split <;> (intro hmem; simp at hmem; exact hmem.2)
    · intro hmem; simp at hmem; exact hmem.2

/-- Witness for the amended C2 at `cfgB`/`wB`/`fsB`: the sanitized
copy is `os.environ` minus the denylist, and the environment actually
passed to the subprocess is the result of `get_clean_env` (here `[]`). -/
theorem compile_gridpack_uses_get_clean_env_witness :
    (compile_gridpack cfgB wB fsB).sanitizedEnv = sanitizeEnv wB.environ ∧
    sanitizeEnv wB.environ = wB.environ.filter
      (fun kv =>
        !(["LD_LIBRARY_PATH", "FC", "COMPILER_PATH", "PYTHONPATH", "CC",
            "CXX"].contains kv.1)) ∧
    ([] : List (String × String)) = wB.getCleanEnv wB.environ := by
  have h := compile_gridpack_uses_get_clean_env cfgB wB fsB
    (addDir fsB (gpGenDirPath cfgB)) true rfl rfl
  exact ⟨h.1, h.2.1, h.2.2 (compileCmd cfgB) [] (by decide)⟩

/-- C3: when the generation subprocess raises `CalledProcessError`,
`compile_gridpack` re-raises that same error in every case; the
subprocess is invoked exactly once (no retry); a missing
`<model_name>.log` is only warned about, and an existing one is only
logged. -/
theorem compile_gridpack_reraises (c : CompileCfg) (w : World) (fs fs1 fs2 : FS)
    (created : Bool) (rc : Int)
    (hScript : isFile fs (scriptPath c) = true)
    (hDir : create_directory fs (gpGenDirPath c) c.force_renew_gridpack_dir true =
      .ok (fs1, created))
    (hRun : w.runCommands (compileCmd c) (w.getCleanEnv w.environ) fs1 =
      (fs2, .error (.calledProcessError rc))) :
    (compile_gridpack c w fs).res = .error (.calledProcessError rc) ∧
    runCount (compile_gridpack c w fs).trace = 1 ∧
    (isFile fs2 (compileLogfile c) = false →
      Event.warnMissingLog (compileLogfile c) ∈ (compile_gridpack c w fs).trace) ∧
    (isFile fs2 (compileLogfile c) = true →
      Event.logContents (compileLogfile c) ∈ (compile_gridpack c w fs).trace) := by
  unfold compile_gridpack
  rw [hScript, hDir]
  simp only [Bool.not_true, Bool.false_eq_true, if_false]
  rw [hRun]
  simp only []
  by_cases hlog : isFile fs2 (compileLogfile c) = true
  · rw [if_pos hlog]
    refine ⟨rfl, by simp [runCount, List.filter], ?_, ?_⟩
    · intro hfalse; rw [hfalse] at hlog; cases hlog
    · intro _; simp
  · rw [if_neg hlog]
    refine ⟨rfl, by simp [runCount, List.filter], ?_, ?_⟩
    · intro _; simp
    · intro htrue; exact absurd htrue hlog

/-- Witness for C3 at `cfgB`/`wC3`/`fsB`: the subprocess fails with
code 1 and writes no log, `compile_gridpack` re-raises
`CalledProcessError 1`, invokes the subprocess once, and warns about
the missing log. -/
theorem compile_gridpack_reraises_witness :
    (compile_gridpack cfgB wC3 fsB).res = .error (.calledProcessError 1) ∧
    runCount (compile_gridpack cfgB wC3 fsB).trace = 1 ∧
    Event.warnMissingLog (compileLogfile cfgB) ∈ (compile_gridpack cfgB wC3 fsB).trace := by
  have h := compile_gridpack_reraises cfgB wC3 fsB (addDir fsB (gpGenDirPath cfgB))
    (addDir fsB (gpGenDirPath cfgB)) true 1 rfl rfl rfl
  exact ⟨h.1, h.2.1, h.2.2.1 rfl⟩

end SvjGenprod

namespace SvjGenprod

/-! ## Theorems about output transfer -/

/-- C5: when the requested (or generated default) output directory
already exists, `_transfer_to_output` raises the directory-exists
`OSError`, logs an error naming the generation working directory where
the intact artifacts remain, and performs no copy, move or delete:
the filesystem and the tracked log file are returned unchanged. -/
theorem transfer_dir_exists (c : OutCfg) (now : String) (move : Bool)
    (od : Option Path) (dry : Bool) (lf0 : Option Path) (fs : FS)
    (hEx : isDir fs (od.getD (defaultOutputDir c now)) = true) :
    transfer_to_output c now move od dry lf0 fs =
      ⟨fs, [.errorDirExists (od.getD (defaultOutputDir c now)) c.mg_genprod_dir],
        lf0, .error (.osError (od.getD (defaultOutputDir c now)))⟩ := by
  have hmk : make_output_directory c now od fs =
      (fs, [.errorDirExists (od.getD (defaultOutputDir c now)) c.mg_genprod_dir],
        .error (.osError (od.getD (defaultOutputDir c now)))) := by
    unfold make_output_directory create_directory
    simp [hEx]
  unfold transfer_to_output
  rw [hmk]

/-- Witness for C5: the destination `["dest"]` already exists in
`fsC5`; the transfer raises and leaves everything unchanged. -/
theorem transfer_dir_exists_witness :
    transfer_to_output cOut "t_" false (some ["dest"]) false none fsC5 =
      ⟨fsC5, [.errorDirExists ["dest"] cOut.mg_genprod_dir], none,
        .error (.osError ["dest"])⟩ :=
  transfer_dir_exists cOut "t_" false (some ["dest"]) false none fsC5 rfl

/-- A dry transfer loop changes nothing on disk, emits the per-source
events (including the log-file reassignments), and ends with the dry
log-file value. -/
theorem transferLoop_dry (outDir : Path) (move : Bool) :
    ∀ (srcs : List Path) (fs : FS) (lf : Option Path),
    transferLoop outDir move true srcs fs lf =
      (fs, dryTrace outDir move srcs, dryLogfile outDir srcs lf, .ok ()) := by
  intro srcs
  induction srcs with
  | nil => intro fs lf; rfl
  | cons src rest ih =>
    intro fs lf
    conv_lhs => rw [transferLoop]
    simp only [if_true]
    rw [ih]
    conv_rhs => rw [dryTrace, dryLogfile]

/-- Each matched `.log` source contributes its reassignment event to
the dry trace. -/
theorem dryTrace_setLogfile (outDir : Path) (move : Bool) :
    ∀ (srcs : List Path) (src : Path), src ∈ srcs →
    pyEndsWith (basename src) ".log" = true →
    Event.setLogfile (outDir ++ [basename src]) ∈ dryTrace outDir move srcs := by
  intro srcs
  induction srcs with
  | nil => intro src h; cases h
  | cons s rest ih =>
    intro src hmem hlog
    rcases List.mem_cons.mp hmem with rfl | hmem2
    · rw [dryTrace]; simp [hlog]
    · rw [dryTrace]
      exact List.mem_cons_of_mem _ (List.mem_append_right _ (ih src hmem2 hlog))

/-- C9: a transfer with `dry=True` still creates the destination
directory (and changes nothing else on disk — in particular no file
appears at the destination), still emits a log-file reassignment for
every matched source ending in `.log`, and leaves `self.logfile`
pointing at the destination path of the last such source. -/
theorem transfer_dry_run (c : OutCfg) (now : String) (move : Bool)
    (od : Option Path) (lf0 : Option Path) (fs : FS)
    (hNew : isDir fs (od.getD (defaultOutputDir c now)) = false) :
    (transfer_to_output c now move od true lf0 fs).res = .ok () ∧
    (transfer_to_output c now move od true lf0 fs).fs =
      addDir fs (od.getD (defaultOutputDir c now)) ∧
    (transfer_to_output c now move od true lf0 fs).logfile =
      dryLogfile (od.getD (defaultOutputDir c now)) (outputSrcs c fs) lf0 ∧
    ∀ src ∈ outputSrcs c fs, pyEndsWith (basename src) ".log" = true →
      Event.setLogfile ((od.getD (defaultOutputDir c now)) ++ [basename src]) ∈
        (transfer_to_output c now move od true lf0 fs).trace := by
  have hmk : make_output_directory c now od fs =
      (addDir fs (od.getD (defaultOutputDir c now)), [],
        .ok (od.getD (defaultOutputDir c now))) := by
    unfold make_output_directory create_directory createDirLoose
    simp [hNew]
  have hred : transfer_to_output c now move od true lf0 fs =
      ⟨addDir fs (od.getD (defaultOutputDir c now)),
        [] ++ dryTrace (od.getD (defaultOutputDir c now)) move (outputSrcs c fs),
        dryLogfile (od.getD (defaultOutputDir c now)) (outputSrcs c fs) lf0,
        .ok ()⟩ := by
    unfold transfer_to_output
    rw [hmk]
    simp only []
    rw [transferLoop_dry]
  rw [hred]
  refine ⟨rfl, rfl, rfl, ?_⟩
  intro src hmem hlog
  simp only [List.nil_append]
  exact dryTrace_setLogfile _ move _ src hmem hlog

/-- Witness for C9 at `cOut`/`fsC9`: with `dry=True` the destination
`["out9"]` is created, no file is copied, yet `self.logfile` is
reassigned to `["out9", "M.log"]` — a path at which no file exists. -/
theorem transfer_dry_run_witness :
    (transfer_to_output cOut "t_" false (some ["out9"]) true none fsC9).res = .ok () ∧
    (transfer_to_output cOut "t_" false (some ["out9"]) true none fsC9).fs =
      addDir fsC9 ["out9"] ∧
    (transfer_to_output cOut "t_" false (some ["out9"]) true none fsC9).logfile =
      some ["out9", "M.log"] ∧
    Event.setLogfile ["out9", "M.log"] ∈
      (transfer_to_output cOut "t_" false (some ["out9"]) true none fsC9).trace := by
  have h := transfer_dry_run cOut "t_" false (some ["out9"]) none fsC9 rfl
  exact ⟨h.1, h.2.1, h.2.2.1, h.2.2.2 ["gp", "M.log"] (by decide) (by decide)⟩

end SvjGenprod

namespace SvjGenprod

/-! ## Path and filesystem lemmas for the transfer loop -/

/-- Reflexivity of `isPrefixOf`. -/
theorem isPrefixOf_refl_path (l : Path) : l.isPrefixOf l = true :=
  List.isPrefixOf_iff_prefix.mpr (List.prefix_refl l)

/-- If `x` is not a prefix of `y`, no child of `x` is a prefix of a
child of `y`. -/
theorem child_not_prefix_child (x y : Path) (hxy : x.isPrefixOf y = false)
    (a b : String) : (x ++ [a]).isPrefixOf (y ++ [b]) = false := by
  cases hcase : (x ++ [a]).isPrefixOf (y ++ [b]) with
  | false => rfl
  | true =>
    exfalso
    have h1 : (x ++ [a]) <+: (y ++ [b]) := List.isPrefixOf_iff_prefix.mp hcase
    have h2 : x <+: (y ++ [b]) := (List.prefix_append x [a]).trans h1
    have hlen : x.length ≤ y.length := by
      have := h1.length_le
      simp at this
      omega
    have h3 : x <+: y := by
      have h4 := List.prefix_iff_eq_take.mp h2
      rw [List.take_append_eq_append_take, Nat.sub_eq_zero_of_le hlen] at h4
      simp at h4
      rw [h4]
      exact List.take_prefix _ _
    have := List.isPrefixOf_iff_prefix.mpr h3
    rw [hxy] at this
    cases this

/-- A path whose prefix check against `p` fails is distinct from `p`. -/
theorem ne_of_not_prefix (p q : Path) (h : p.isPrefixOf q = false) : q ≠ p := by
  intro heq
  rw [heq, isPrefixOf_refl_path] at h
  cases h

/-- Two children of the same directory with a prefix relation are
equal (same final component). -/
theorem gchild_prefix_eq (x : Path) (a b : String)
    (h : (x ++ [a]).isPrefixOf (x ++ [b]) = true) : a = b := by
  have h1 := List.isPrefixOf_iff_prefix.mp h
  rw [List.prefix_append_right_inj] at h1
  obtain ⟨t, ht⟩ := h1
  cases t with
  | nil => simpa using ht
  | cons u us => simp at ht

/-- Membership form of `isDir`. -/
theorem isDir_iff_mem (fs : FS) (p : Path) : isDir fs p = true ↔ p ∈ fs.dirs := by
  simp [isDir, List.contains, List.elem_eq_mem]

/-- Existence form of `isFile`. -/
theorem isFile_iff_exists (fs : FS) (q : Path) :
    isFile fs q = true ↔ ∃ d, (q, d) ∈ fs.files := by
  simp only [isFile, readFile, Option.isSome_map', List.find?_isSome]
  constructor
  · rintro ⟨e, he, hbeq⟩
    have h1 : e.1 = q := by simpa using hbeq
    exact ⟨e.2, by rw [← h1]; exact he⟩
  · rintro ⟨d, hd⟩
    exact ⟨(q, d), hd, by simp⟩

/-- A path that is not a file has no readable contents. -/
theorem readFile_eq_none_of_not_isFile (fs : FS) (q : Path)
    (h : isFile fs q = false) : readFile fs q = none := by
  cases hr : readFile fs q with
  | none => rfl
  | some d =>
    unfold isFile at h
    rw [hr] at h
    cases h

/-- Writing at a different path does not change whether `q` is a file. -/
theorem isFile_writeFile_ne (fs : FS) (p q : Path) (d : Doc) (h : q ≠ p) :
    isFile (writeFile fs p d) q = isFile fs q := by
  rw [Bool.eq_iff_iff, isFile_iff_exists, isFile_iff_exists]
  constructor
  · rintro ⟨d2, hd2⟩
    simp only [writeFile] at hd2
    rcases List.mem_cons.mp hd2 with heq | hmem
    · exact absurd (congrArg Prod.fst heq) h
    · exact ⟨d2, (List.mem_filter.mp hmem).1⟩
  · rintro ⟨d2, hd2⟩
    refine ⟨d2, List.mem_cons_of_mem _ (List.mem_filter.mpr ⟨hd2, ?_⟩)⟩
    simp [h]

/-- Removing the entry at `s` does not change whether `q ≠ s` is a
file. -/
theorem isFile_filter_src (fs : FS) (s q : Path) (ds : List Path) (h : q ≠ s) :
    isFile ⟨fs.files.filter (fun e => !(e.1 == s)), ds⟩ q = isFile fs q := by
  rw [Bool.eq_iff_iff, isFile_iff_exists, isFile_iff_exists]
  constructor
  · rintro ⟨d2, hd2⟩
    exact ⟨d2, (List.mem_filter.mp hd2).1⟩
  · rintro ⟨d2, hd2⟩
    refine ⟨d2, List.mem_filter.mpr ⟨hd2, ?_⟩⟩
    simp [h]

/-- Paths outside the moved subtree are fixed by `prefixRewrite`. -/
theorem prefixRewrite_fixed (s dst q : Path) (h : s.isPrefixOf q = false) :
    prefixRewrite s dst q = q := by
  unfold prefixRewrite
  rw [h]
  rfl

/-- The subtree root is sent to the destination by `prefixRewrite`. -/
theorem prefixRewrite_self (s dst : Path) : prefixRewrite s dst s = dst := by
  unfold prefixRewrite
  rw [isPrefixOf_refl_path]
  simp

/-- A path not below the destination can only be the image of itself
under `prefixRewrite`. -/
theorem prefixRewrite_preimage (s dst r q : Path)
    (h : prefixRewrite s dst r = q) (hq : dst.isPrefixOf q = false) : r = q := by
  unfold prefixRewrite at h
  by_cases hp : s.isPrefixOf r = true
  · exfalso
    rw [if_pos hp] at h
    have hpre : dst <+: q := h ▸ List.prefix_append dst _
    have := List.isPrefixOf_iff_prefix.mpr hpre
    rw [hq] at this
    cases this
  · rw [Bool.not_eq_true] at hp
    rw [hp] at h
    simpa using h

end SvjGenprod

namespace SvjGenprod

/-! ## Step lemmas for the transfer loop -/

/-- Effect of moving one glob-matched child of the generation
directory `g` into the separate destination `target`: every other
child of `g` keeps its file/directory status, existing children of
`target` survive, no new child of `g` appears, and a directory source
is itself relocated. -/
theorem shutilMove_gchild_step (g target : Path)
    (hSep1 : g.isPrefixOf target = false) (hSep2 : target.isPrefixOf g = false)
    (s : Path) (hs : s = g ++ [basename s]) (fs fsN : FS)
    (hmv : shutilMove fs s (target ++ [basename s]) = .ok fsN) :
    (∀ q, q = g ++ [basename q] → q ≠ s →
      (isFile fsN q = isFile fs q ∧ (q ∈ fsN.dirs ↔ q ∈ fs.dirs))) ∧
    (∀ x, (target ++ [x]) ∈ fs.dirs → (target ++ [x]) ∈ fsN.dirs) ∧
    (∀ q, q = g ++ [basename q] → q ∉ fs.dirs → q ∉ fsN.dirs) ∧
    (isFile fs s = false → s ∈ fs.dirs →
      (target ++ [basename s]) ∈ fsN.dirs ∧ s ∉ fsN.dirs) := by
  unfold shutilMove at hmv
  cases hr : readFile fs s with
  | some doc =>
    rw [hr] at hmv
    have hfsN := Except.ok.inj hmv
    have hdirs : fsN.dirs = fs.dirs := by rw [← hfsN]; rfl
    refine ⟨?_, ?_, ?_, ?_⟩
    · intro q hq hne
      refine ⟨?_, by rw [hdirs]⟩
      have hqdst : q ≠ target ++ [basename s] := by
        apply ne_of_not_prefix
        rw [hq]
        exact child_not_prefix_child target g hSep2 (basename s) (basename q)
      rw [← hfsN, isFile_writeFile_ne _ _ _ _ hqdst, isFile_filter_src _ _ _ _ hne]
    · intro x hx
      rw [hdirs]; exact hx
    · intro q _ hq0
      rw [hdirs]; exact hq0
    · intro hff _
      exfalso
      unfold isFile at hff
      rw [hr] at hff
      cases hff
  | none =>
    rw [hr] at hmv
    cases hdir : isDir fs s with
    | false => rw [hdir] at hmv; cases hmv
    | true =>
      rw [hdir] at hmv
      simp only [if_true] at hmv
      have hfsN := Except.ok.inj hmv
      have hfiles : fsN.files =
          fs.files.map fun e => (prefixRewrite s (target ++ [basename s]) e.1, e.2) := by
        rw [← hfsN]
      have hdirs : fsN.dirs = fs.dirs.map (prefixRewrite s (target ++ [basename s])) := by
        rw [← hfsN]
      have hnotpre : ∀ q : Path, q = g ++ [basename q] →
          (target ++ [basename s]).isPrefixOf q = false := by
        intro q hq
        rw [hq]
        exact child_not_prefix_child target g hSep2 (basename s) (basename q)
      refine ⟨?_, ?_, ?_, ?_⟩
      · intro q hq hne
        have hfix : prefixRewrite s (target ++ [basename s]) q = q := by
          apply prefixRewrite_fixed
          cases hsq : s.isPrefixOf q with
          | false => rfl
          | true =>
            exfalso
            apply hne
            rw [hq, hs] at hsq
            have := gchild_prefix_eq g (basename s) (basename q) hsq
            rw [hq, hs, this]
        constructor
        · rw [Bool.eq_iff_iff, isFile_iff_exists, isFile_iff_exists]
          constructor
          · rintro ⟨d2, hd2⟩
            rw [hfiles] at hd2
            obtain ⟨e, he, heq⟩ := List.mem_map.mp hd2
            have h1 : prefixRewrite s (target ++ [basename s]) e.1 = q :=
              congrArg Prod.fst heq
            have h2 : e.1 = q := prefixRewrite_preimage _ _ _ _ h1 (hnotpre q hq)
            have h3 : e.2 = d2 := congrArg Prod.snd heq
            exact ⟨e.2, by rw [← h2]; exact he⟩
          · rintro ⟨d2, hd2⟩
            refine ⟨d2, ?_⟩
            rw [hfiles]
            exact List.mem_map.mpr ⟨(q, d2), hd2, by simp [hfix]⟩
        · rw [hdirs]
          constructor
          · intro hmem
            obtain ⟨r, hr2, hr3⟩ := List.mem_map.mp hmem
            have := prefixRewrite_preimage _ _ _ _ hr3 (hnotpre q hq)
            rw [← this]; exact hr2
          · intro hmem
            exact List.mem_map.mpr ⟨q, hmem, hfix⟩
      · intro x hx
        rw [hdirs]
        refine List.mem_map.mpr ⟨target ++ [x], hx, ?_⟩
        apply prefixRewrite_fixed
        rw [hs]
        exact child_not_prefix_child g target hSep1 (basename s) x
      · intro q hq hq0
        rw [hdirs]
        intro hmem
        obtain ⟨r, hr2, hr3⟩ := List.mem_map.mp hmem
        have := prefixRewrite_preimage _ _ _ _ hr3 (hnotpre q hq)
        rw [this] at hr2
        exact hq0 hr2
      · intro _ hsdir
        constructor
        · rw [hdirs]
          exact List.mem_map.mpr ⟨s, hsdir, prefixRewrite_self _ _⟩
        · rw [hdirs]
          intro hmem
          obtain ⟨r, hr2, hr3⟩ := List.mem_map.mp hmem
          have := prefixRewrite_preimage _ _ _ _ hr3 (hnotpre s hs)
          rw [this] at hr2
          unfold prefixRewrite at hr3
          rw [this, isPrefixOf_refl_path] at hr3
          simp at hr3
          have hne := ne_of_not_prefix _ _ (hnotpre s hs)
          exact hne hr3.symm

end SvjGenprod

namespace SvjGenprod

/-- Copying one regular-file source into the separate destination
keeps every child of `g` a file or not exactly as before, and leaves
the directory list unchanged. -/
theorem shutilCopyfile_gchild_step (g target : Path)
    (hSep2 : target.isPrefixOf g = false)
    (s : Path) (hs : s = g ++ [basename s]) (fs : FS) (doc : Doc)
    (hr : readFile fs s = some doc) :
    shutilCopyfile fs s (target ++ [basename s]) =
      .ok (writeFile fs (target ++ [basename s]) doc) ∧
    (∀ q, q = g ++ [basename q] →
      isFile (writeFile fs (target ++ [basename s]) doc) q = isFile fs q) ∧
    (writeFile fs (target ++ [basename s]) doc).dirs = fs.dirs := by
  refine ⟨?_, ?_, rfl⟩
  · unfold shutilCopyfile
    rw [hr]
  · intro q hq
    apply isFile_writeFile_ne
    apply ne_of_not_prefix
    rw [hq]
    exact child_not_prefix_child target g hSep2 (basename s) (basename q)

/-- A directory source makes `shutil.copyfile` raise
`IsADirectoryError`. -/
theorem shutilCopyfile_dir (fs : FS) (s dst : Path)
    (hnf : isFile fs s = false) (hd : s ∈ fs.dirs) :
    shutilCopyfile fs s dst = .error (.isADirectoryError s) := by
  unfold shutilCopyfile
  rw [readFile_eq_none_of_not_isFile fs s hnf]
  rw [(isDir_iff_mem fs s).mpr hd]
  rfl

/-- A directory source is renamed by `shutil.move`. -/
theorem shutilMove_dir_ok (fs : FS) (s dst : Path)
    (hnf : isFile fs s = false) (hd : s ∈ fs.dirs) :
    shutilMove fs s dst =
      .ok { files := fs.files.map fun e => (prefixRewrite s dst e.1, e.2),
            dirs := fs.dirs.map (prefixRewrite s dst) } := by
  unfold shutilMove
  rw [readFile_eq_none_of_not_isFile fs s hnf]
  rw [(isDir_iff_mem fs s).mpr hd]
  rfl

/-- Reduction of the non-dry transfer loop on a successful step. -/
theorem transferLoop_cons_step_ok (outDir : Path) (move : Bool) (s : Path)
    (rest : List Path) (fs fsN : FS) (lf : Option Path)
    (hstep : (if move then shutilMove fs s (outDir ++ [basename s])
              else shutilCopyfile fs s (outDir ++ [basename s])) = .ok fsN) :
    (transferLoop outDir move false (s :: rest) fs lf).1 =
      (transferLoop outDir move false rest fsN
        (if pyEndsWith (basename s) ".log" then some (outDir ++ [basename s]) else lf)).1 ∧
    (transferLoop outDir move false (s :: rest) fs lf).2.2.2 =
      (transferLoop outDir move false rest fsN
        (if pyEndsWith (basename s) ".log" then some (outDir ++ [basename s]) else lf)).2.2.2 := by
  refine ⟨?_, ?_⟩ <;>
  · conv_lhs => rw [transferLoop]
    rw [hstep]
    simp

/-- Reduction of the non-dry transfer loop on a failing step. -/
theorem transferLoop_cons_step_err (outDir : Path) (move : Bool) (s : Path)
    (rest : List Path) (fs : FS) (lf : Option Path) (e : PyErr)
    (hstep : (if move then shutilMove fs s (outDir ++ [basename s])
              else shutilCopyfile fs s (outDir ++ [basename s])) = .error e) :
    (transferLoop outDir move false (s :: rest) fs lf).2.2.2 = .error e := by
  conv_lhs => rw [transferLoop]
  rw [hstep]
  simp

/-- The result of `find?` only depends on the values the predicate
takes on the list. -/
theorem find?_congr_on (l : List Path) (p1 p2 : Path → Bool)
    (h : ∀ x ∈ l, p1 x = p2 x) : l.find? p1 = l.find? p2 := by
  induction l with
  | nil => rfl
  | cons a l ih =>
    have ha := h a (by simp)
    by_cases hpa : p1 a = true
    · rw [List.find?_cons_of_pos _ hpa, List.find?_cons_of_pos _ (ha ▸ hpa)]
    · have h2 : ¬ p2 a = true := by rw [← ha]; exact hpa
      rw [List.find?_cons_of_neg _ hpa, List.find?_cons_of_neg _ h2]
      exact ih (fun x hx => h x (by simp [hx]))

/-- Every glob match of `_get_output_files_and_dirs` is a direct child
of the generation working directory. -/
theorem outputSrcs_shape (c : OutCfg) (fs : FS) :
    ∀ q ∈ outputSrcs c fs, q = c.mg_genprod_dir ++ [basename q] := by
  intro q hq
  obtain ⟨-, hcond⟩ := List.mem_filter.mp hq
  simp only [Bool.and_eq_true, beq_iff_eq] at hcond
  obtain ⟨⟨hlen, hpre⟩, -⟩ := hcond
  have hjoin : c.mg_genprod_dir ++ q.drop c.mg_genprod_dir.length = q :=
    List.prefix_iff_eq_append.mp (List.isPrefixOf_iff_prefix.mp hpre)
  have hlen2 : (q.drop c.mg_genprod_dir.length).length = 1 := by
    simp [List.length_drop, hlen]
  obtain ⟨a, ha⟩ := List.length_eq_one.mp hlen2
  rw [ha] at hjoin
  have hbase : basename q = a := by
    rw [← hjoin, basename, List.getLastD_concat]
  rw [hbase, hjoin]

/-- Every glob match is a file or a directory of the filesystem it
was collected from. -/
theorem outputSrcs_file_or_dir (c : OutCfg) (fs : FS) :
    ∀ q ∈ outputSrcs c fs, isFile fs q = true ∨ q ∈ fs.dirs := by
  intro q hq
  obtain ⟨hmem, -⟩ := List.mem_filter.mp hq
  rcases List.mem_append.mp hmem with hfile | hdir
  · left
    obtain ⟨e, he, heq⟩ := List.mem_map.mp hfile
    rw [isFile_iff_exists]
    exact ⟨e.2, by rw [← heq]; exact he⟩
  · right; exact hdir

end SvjGenprod

namespace SvjGenprod

/-- In copy mode the transfer loop raises `IsADirectoryError` at the
first matched source that is not a regular file. -/
theorem transferLoop_copy_first_dir (g target : Path)
    (hSep1 : g.isPrefixOf target = false) (hSep2 : target.isPrefixOf g = false) :
    ∀ (srcs : List Path) (fs : FS) (lf : Option Path) (d : Path),
    (∀ q ∈ srcs, q = g ++ [basename q]) →
    (∀ q ∈ srcs, isFile fs q = true ∨ q ∈ fs.dirs) →
    srcs.find? (fun q => !(isFile fs q)) = some d →
    (transferLoop target false false srcs fs lf).2.2.2 =
      .error (.isADirectoryError d) := by
  intro srcs
  induction srcs with
  | nil => intro fs lf d _ _ hfind; cases hfind
  | cons s rest ih =>
    intro fs lf d hshape hfd hfind
    have hss := hshape s (by simp)
    by_cases hf : isFile fs s = true
    · have hpred : ¬ ((fun q => !(isFile fs q)) s = true) := by simp [hf]
      rw [@List.find?_cons_of_neg _ (fun q => !(isFile fs q)) s rest hpred] at hfind
      have hf2 := hf
      unfold isFile at hf2
      obtain ⟨doc, hr⟩ := Option.isSome_iff_exists.mp hf2
      obtain ⟨hcopy, hpres, hdirs⟩ :=
        shutilCopyfile_gchild_step g target hSep2 s hss fs doc hr
      have hred := transferLoop_cons_step_ok target false s rest fs
        (writeFile fs (target ++ [basename s]) doc) lf hcopy
      rw [hred.2]
      apply ih
      · exact fun q hq => hshape q (by simp [hq])
      · intro q hq
        rcases hfd q (by simp [hq]) with hqf | hqd
        · left; rw [hpres q (hshape q (by simp [hq]))]; exact hqf
        · right; rw [hdirs]; exact hqd
      · rw [find?_congr_on rest _ (fun q => !(isFile fs q))
          (fun x hx => by rw [hpres x (hshape x (by simp [hx]))])]
        exact hfind
    · have hf2 : isFile fs s = false := by revert hf; cases isFile fs s <;> simp
      have hpred : (fun q => !(isFile fs q)) s = true := by simp [hf2]
      rw [@List.find?_cons_of_pos _ (fun q => !(isFile fs q)) s rest hpred] at hfind
      have hd := (Option.some.inj hfind).symm
      subst hd
      rcases hfd d (by simp) with hqf | hqd
      · exact absurd hqf hf
      exact transferLoop_cons_step_err target false d rest fs lf _
        (shutilCopyfile_dir fs d (target ++ [basename d]) hf2 hqd)

/-- In move mode the transfer loop relocates every matched source
(files and directories alike): it succeeds, keeps what is already
under the destination, creates no new child of the generation
directory, and for each matched directory source puts a directory at
the destination and removes the original. -/
theorem transferLoop_move_master (g target : Path)
    (hSep1 : g.isPrefixOf target = false) (hSep2 : target.isPrefixOf g = false) :
    ∀ (srcs : List Path) (fs : FS) (lf : Option Path),
    (∀ q ∈ srcs, q = g ++ [basename q]) →
    (∀ q ∈ srcs, isFile fs q = true ∨ q ∈ fs.dirs) →
    srcs.Nodup →
    (transferLoop target true false srcs fs lf).2.2.2 = .ok () ∧
    (∀ x, (target ++ [x]) ∈ fs.dirs →
      (target ++ [x]) ∈ (transferLoop target true false srcs fs lf).1.dirs) ∧
    (∀ q, q = g ++ [basename q] → q ∉ fs.dirs →
      q ∉ (transferLoop target true false srcs fs lf).1.dirs) ∧
    (∀ q ∈ srcs, q ∈ fs.dirs → isFile fs q = false →
      (target ++ [basename q]) ∈ (transferLoop target true false srcs fs lf).1.dirs ∧
      q ∉ (transferLoop target true false srcs fs lf).1.dirs) := by
  intro srcs
  induction srcs with
  | nil =>
    intro fs lf _ _ _
    exact ⟨rfl, fun x hx => hx, fun q _ h => h,
      fun q hq => absurd hq (List.not_mem_nil q)⟩
  | cons s rest ih =>
    intro fs lf hshape hfd hnd
    have hss := hshape s (by simp)
    have hmv : ∃ fsN, shutilMove fs s (target ++ [basename s]) = .ok fsN := by
      by_cases hqf : isFile fs s = true
      · have hqf2 := hqf
        unfold isFile at hqf2
        obtain ⟨doc, hr⟩ := Option.isSome_iff_exists.mp hqf2
        exact ⟨_, by unfold shutilMove; rw [hr]⟩
      · have hf2 : isFile fs s = false := by revert hqf; cases isFile fs s <;> simp
        rcases hfd s (by simp) with h1 | h1
        · exact absurd h1 hqf
        · exact ⟨_, shutilMove_dir_ok fs s _ hf2 h1⟩
    obtain ⟨fsN, hmv⟩ := hmv
    obtain ⟨hpresQ, hkeepT, hnoNew, hdirMoved⟩ :=
      shutilMove_gchild_step g target hSep1 hSep2 s hss fs fsN hmv
    have hnods : s ∉ rest := (List.nodup_cons.mp hnd).1
    have hndr : rest.Nodup := (List.nodup_cons.mp hnd).2
    have hshr : ∀ q ∈ rest, q = g ++ [basename q] :=
      fun q hq => hshape q (by simp [hq])
    have hneq : ∀ q ∈ rest, q ≠ s := fun q hq heq => hnods (heq ▸ hq)
    have hfdr : ∀ q ∈ rest, isFile fsN q = true ∨ q ∈ fsN.dirs := by
      intro q hq
      rcases hfd q (by simp [hq]) with h1 | h1
      · left; rw [(hpresQ q (hshr q hq) (hneq q hq)).1]; exact h1
      · right; exact ((hpresQ q (hshr q hq) (hneq q hq)).2).mpr h1
    obtain ⟨ihok, ihT, ihNoNew, ihMoved⟩ :=
      ih fsN (if pyEndsWith (basename s) ".log" then some (target ++ [basename s]) else lf)
        hshr hfdr hndr
    have hred := transferLoop_cons_step_ok target true s rest fs fsN lf hmv
    refine ⟨?_, ?_, ?_, ?_⟩
    · rw [hred.2]; exact ihok
    · intro x hx
      rw [hred.1]; exact ihT x (hkeepT x hx)
    · intro q hq hq0
      rw [hred.1]; exact ihNoNew q hq (hnoNew q hq hq0)
    · intro q hqmem hqdir hqfile
      rw [hred.1]
      rcases List.mem_cons.mp hqmem with rfl | hqr
      · obtain ⟨hdst, hgone⟩ := hdirMoved hqfile hqdir
        exact ⟨ihT (basename q) hdst, ihNoNew q hss hgone⟩
      · have h1 : q ∈ fsN.dirs := ((hpresQ q (hshr q hqr) (hneq q hqr)).2).mpr hqdir
        have h2 : isFile fsN q = false := by
          rw [(hpresQ q (hshr q hqr) (hneq q hqr)).1]; exact hqfile
        exact ihMoved q hqr h1 h2

end SvjGenprod

namespace SvjGenprod

/-- C10: copy mode transfers each source with `shutil.copyfile`, which
only accepts regular files — when the glob matches a directory,
`copy_to_output` raises `IsADirectoryError` at the first such entry —
whereas `move_to_output` relocates directories as well as regular
files: it succeeds, a directory appears under the destination, and the
original directory is gone. -/
theorem copy_raises_on_dir_move_relocates (c : OutCfg) (now : String)
    (od : Option Path) (lf0 : Option Path) (fs : FS) (d : Path)
    (hFirst : (outputSrcs c fs).find? (fun q => !(isFile fs q)) = some d)
    (hNew : isDir fs (od.getD (defaultOutputDir c now)) = false)
    (hNodup : (outputSrcs c fs).Nodup)
    (hSep1 : c.mg_genprod_dir.isPrefixOf (od.getD (defaultOutputDir c now)) = false)
    (hSep2 : (od.getD (defaultOutputDir c now)).isPrefixOf c.mg_genprod_dir = false) :
    (copy_to_output c now od false lf0 fs).res = .error (.isADirectoryError d) ∧
    (move_to_output c now od false lf0 fs).res = .ok () ∧
    ((od.getD (defaultOutputDir c now)) ++ [basename d]) ∈
      (move_to_output c now od false lf0 fs).fs.dirs ∧
    d ∉ (move_to_output c now od false lf0 fs).fs.dirs := by
  have hmk : make_output_directory c now od fs =
      (addDir fs (od.getD (defaultOutputDir c now)), [],
        .ok (od.getD (defaultOutputDir c now))) := by
    unfold make_output_directory create_directory createDirLoose
    simp [hNew]
  have hredRes : ∀ move : Bool, (transfer_to_output c now move od false lf0 fs).res =
      (transferLoop (od.getD (defaultOutputDir c now)) move false (outputSrcs c fs)
        (addDir fs (od.getD (defaultOutputDir c now))) lf0).2.2.2 := by
    intro move
    unfold transfer_to_output
    rw [hmk]
  have hredFs : ∀ move : Bool, (transfer_to_output c now move od false lf0 fs).fs =
      (transferLoop (od.getD (defaultOutputDir c now)) move false (outputSrcs c fs)
        (addDir fs (od.getD (defaultOutputDir c now))) lf0).1 := by
    intro move
    unfold transfer_to_output
    rw [hmk]
  have hshape1 : ∀ q ∈ outputSrcs c fs, q = c.mg_genprod_dir ++ [basename q] :=
    outputSrcs_shape c fs
  have hfd1 : ∀ q ∈ outputSrcs c fs,
      isFile (addDir fs (od.getD (defaultOutputDir c now))) q = true ∨
        q ∈ (addDir fs (od.getD (defaultOutputDir c now))).dirs := by
    intro q hq
    rcases outputSrcs_file_or_dir c fs q hq with h1 | h1
    · exact Or.inl h1
    · exact Or.inr (List.mem_cons_of_mem _ h1)
  have hFirst1 : (outputSrcs c fs).find?
      (fun q => !(isFile (addDir fs (od.getD (defaultOutputDir c now))) q)) = some d :=
    hFirst
  have hdmem : d ∈ outputSrcs c fs := List.mem_of_find?_eq_some hFirst
  have hdfile : isFile fs d = false := by
    have := List.find?_some hFirst
    revert this
    cases isFile fs d <;> simp
  have hddir : d ∈ fs.dirs := by
    rcases outputSrcs_file_or_dir c fs d hdmem with h1 | h1
    · rw [hdfile] at h1; cases h1
    · exact h1
  refine ⟨?_, ?_, ?_, ?_⟩
  · show (transfer_to_output c now false od false lf0 fs).res = _
    rw [hredRes false]
    exact transferLoop_copy_first_dir c.mg_genprod_dir
      (od.getD (defaultOutputDir c now)) hSep1 hSep2 (outputSrcs c fs)
      (addDir fs (od.getD (defaultOutputDir c now))) lf0 d hshape1 hfd1 hFirst1
  · show (transfer_to_output c now true od false lf0 fs).res = _
    rw [hredRes true]
    exact (transferLoop_move_master c.mg_genprod_dir
      (od.getD (defaultOutputDir c now)) hSep1 hSep2 (outputSrcs c fs)
      (addDir fs (od.getD (defaultOutputDir c now))) lf0 hshape1 hfd1 hNodup).1
  · show _ ∈ (transfer_to_output c now true od false lf0 fs).fs.dirs
    rw [hredFs true]
    exact ((transferLoop_move_master c.mg_genprod_dir
      (od.getD (defaultOutputDir c now)) hSep1 hSep2 (outputSrcs c fs)
      (addDir fs (od.getD (defaultOutputDir c now))) lf0 hshape1 hfd1 hNodup).2.2.2
      d hdmem (List.mem_cons_of_mem _ hddir) hdfile).1
  · show _ ∉ (transfer_to_output c now true od false lf0 fs).fs.dirs
    rw [hredFs true]
    exact ((transferLoop_move_master c.mg_genprod_dir
      (od.getD (defaultOutputDir c now)) hSep1 hSep2 (outputSrcs c fs)
      (addDir fs (od.getD (defaultOutputDir c now))) lf0 hshape1 hfd1 hNodup).2.2.2
      d hdmem (List.mem_cons_of_mem _ hddir) hdfile).2

/-- Witness for C10 at `cOut`/`fsC10`: the glob matches the log file
and the directory `["gp", "M_gridpack"]`; copying raises
`IsADirectoryError` on the directory, while moving succeeds and
relocates it to `["dest", "M_gridpack"]`. -/
theorem copy_raises_on_dir_move_relocates_witness :
    (copy_to_output cOut "t_" (some ["dest"]) false none fsC10).res =
      .error (.isADirectoryError ["gp", "M_gridpack"]) ∧
    (move_to_output cOut "t_" (some ["dest"]) false none fsC10).res = .ok () ∧
    (["dest", "M_gridpack"] : Path) ∈
      (move_to_output cOut "t_" (some ["dest"]) false none fsC10).fs.dirs ∧
    (["gp", "M_gridpack"] : Path) ∉
      (move_to_output cOut "t_" (some ["dest"]) false none fsC10).fs.dirs := by
  have h := copy_raises_on_dir_move_relocates cOut "t_" (some ["dest"]) none fsC10
    ["gp", "M_gridpack"] rfl rfl (by decide) rfl rfl
  exact ⟨h.1, h.2.1, h.2.2.1, h.2.2.2⟩

end SvjGenprod
